import Mathlib

/-!
Shallow embedding of `src/pynvim/msgpack_rpc/event_loop/uvloop.py`
(class `UVLoopEventLoop`, an `asyncio.Protocol` / `asyncio.SubprocessProtocol`
implementation over a uvloop/asyncio event loop).

Modelling conventions:
- A byte chunk is a `List Nat` (byte values).
- The three consumer bindings (`self._on_data`, `self._on_error`,
  `self._on_stderr`) are external callbacks; an invocation of one of them is
  recorded as an `Effect` in an emitted effect list, in invocation order.
  Whether `self._on_data` is set (the truthiness test `if self._on_data:`)
  is the boolean field `on_data_set`.
- Python runtime exceptions that the handler body itself can raise are
  modelled with `Except PyErr`: `IndexError` from `exc.args[0]` on an empty
  argument tuple, `TypeError` from calling an unset (`None`) callback, and
  `AttributeError` from reading `self._transport` before `connection_made`.
- `self._queued_data` is a `collections.deque`: `append` adds at the right,
  `popleft` removes at the left, so it is a `List` with append at the tail.
- Transports are modelled by reference: `TransportRef.raw` is the transport
  object passed to `connection_made`, `TransportRef.pipe fd` is the result of
  `transport.get_pipe_transport(fd)` on a subprocess transport. A call
  `t.write(data)` is logged in the `writes` field.
-/

namespace PynvimUVLoop

/-- A raw byte chunk, as delivered by the loop to the protocol. -/
abbrev Chunk := List Nat

/-- The reason value handed to the on error consumer binding. -/
abbrev Reason := String

/-- A Python exception object as seen by `connection_lost`: the model keeps
only its `args` tuple, which is all the source reads (`exc.args[0]`). -/
structure Exc where
  args : List Reason
deriving DecidableEq

/-- Python runtime errors that a handler body can raise. -/
inductive PyErr where
  /-- `exc.args[0]` on an empty `args` tuple. -/
  | indexError
  /-- calling a callback slot that holds `None`. -/
  | typeError
  /-- reading `self._transport` before any `connection_made`. -/
  | attributeError
deriving DecidableEq

/-- An invocation of one of the consumer bindings. -/
inductive Effect where
  | onData (data : Chunk)
  | onStderr (data : Chunk)
  | onError (reason : Reason)
deriving DecidableEq

/-- Reference to a transport object: the raw transport given to
`connection_made`, or a pipe sub-transport `get_pipe_transport(fd)`. -/
inductive TransportRef where
  | raw
  | pipe (fd : Nat)
deriving DecidableEq

/-- The mutable attributes of a `UVLoopEventLoop` instance that the embedded
methods read or write, plus the log of `transport.write` calls. -/
structure DriverState where
  /-- `self._queued_data` (a deque; tail of the list is the append side). -/
  queued_data : List Chunk
  /-- whether `self._on_data` holds a callback (truthy) rather than being unset. -/
  on_data_set : Bool
  /-- `self._transport` (`none` while the attribute is unset). -/
  transport : Option TransportRef
  /-- `self._raw_transport`. -/
  raw_transport : Option TransportRef
  /-- log of `t.write(data)` calls made through `_send`, in order. -/
  writes : List (TransportRef × Chunk)
deriving DecidableEq

/-- `_init`: fresh loop, `self._queued_data = deque()`, `self._raw_transport = None`;
`self._transport` and the consumer bindings are not set. -/
def init_state : DriverState :=
  { queued_data := [], on_data_set := false, transport := none,
    raw_transport := none, writes := [] }

/-- `connection_made(transport)`: stores the transport in both
`self._transport` and `self._raw_transport`; if the transport is an
`asyncio.SubprocessTransport`, `self._transport` becomes
`transport.get_pipe_transport(0)` (the stdin pipe of the child). -/
def connection_made (s : DriverState) (isSubprocess : Bool) : DriverState :=
  { s with raw_transport := some TransportRef.raw,
           transport := some (if isSubprocess then TransportRef.pipe 0 else TransportRef.raw) }

/-- `connection_lost(exc)`: `self._on_error(exc.args[0] if exc else 'EOF')`.
A non-`None` exception object is truthy; indexing an empty `args` tuple
raises `IndexError` before any callback fires. -/
def connection_lost (s : DriverState) (exc : Option Exc) :
    Except PyErr (DriverState × List Effect) :=
  match exc with
  | none => Except.ok (s, [Effect.onError "EOF"])
  | some e =>
    match e.args with
    | [] => Except.error PyErr.indexError
    | r :: _ => Except.ok (s, [Effect.onError r])

/-- `data_received(data)`: deliver to `self._on_data` when set, else append
the chunk to `self._queued_data`. -/
def data_received (s : DriverState) (data : Chunk) : DriverState × List Effect :=
  if s.on_data_set then (s, [Effect.onData data])
  else ({ s with queued_data := s.queued_data ++ [data] }, [])

/-- `pipe_connection_lost(fd, exc)`: same body as `connection_lost`; the fd
argument is ignored by the source. -/
def pipe_connection_lost (s : DriverState) (fd : Nat) (exc : Option Exc) :
    Except PyErr (DriverState × List Effect) :=
  match exc with
  | none => Except.ok (s, [Effect.onError "EOF"])
  | some e =>
    match e.args with
    | [] => Except.error PyErr.indexError
    | r :: _ => Except.ok (s, [Effect.onError r])

/-- `pipe_data_received(fd, data)`: fd 2 (stderr) goes straight to
`self._on_stderr`; any other fd follows the primary data path
(deliver when `self._on_data` is set, else queue). -/
def pipe_data_received (s : DriverState) (fd : Nat) (data : Chunk) :
    DriverState × List Effect :=
  if fd = 2 then (s, [Effect.onStderr data])
  else if s.on_data_set then (s, [Effect.onData data])
  else ({ s with queued_data := s.queued_data ++ [data] }, [])

/-- `process_exited()`: `self._on_error('EOF')`. -/
def process_exited (s : DriverState) : DriverState × List Effect :=
  (s, [Effect.onError "EOF"])

/-- The OS delivering the exit of the spawned child, carrying the exit code
that the operating system produced. asyncio invokes `process_exited()` with
no arguments, so the code never reaches the driver: the handler is
`process_exited` regardless of `exitCode`. -/
def handleChildExit (s : DriverState) (exitCode : Int) : DriverState × List Effect :=
  process_exited s

/-- `_send(data)`: `self._transport.write(data)`. Reading `self._transport`
before it was set raises; otherwise the write is logged and nothing is
returned (no status, no partial-write count). -/
def send_bytes (s : DriverState) (data : Chunk) : Except PyErr DriverState :=
  match s.transport with
  | none => Except.error PyErr.attributeError
  | some t => Except.ok { s with writes := s.writes ++ [(t, data)] }

/-- The externally observable calls `_close` makes, in order. -/
inductive CloseAction where
  | closeTransport
  | closeLoop
deriving DecidableEq

/-- `_close()`: `self._raw_transport.close()` only when
`self._raw_transport is not None`, then always `self._loop.close()`. -/
def close_driver (s : DriverState) : List CloseAction :=
  (if s.raw_transport.isSome then [CloseAction.closeTransport] else []) ++
    [CloseAction.closeLoop]

/-- The owning client registering the on data consumer binding. -/
def register_on_data (s : DriverState) : DriverState :=
  { s with on_data_set := true }

/-- The drain loop opening `_run`:
`while self._queued_data: self._on_data(self._queued_data.popleft())`.
Calling `self._on_data` while it is unset (`None`) raises `TypeError`. -/
def drain (on_data : Bool) : List Chunk → Except PyErr (List Effect)
  | [] => Except.ok []
  | d :: rest =>
    if on_data then
      match drain on_data rest with
      | Except.ok es => Except.ok (Effect.onData d :: es)
      | Except.error e => Except.error e
    else Except.error PyErr.typeError

/-- The drain phase of `_run` on a driver state: on success the queue is
empty and the drained chunks were delivered in order. -/
def run_drain (s : DriverState) : Except PyErr (DriverState × List Effect) :=
  match drain s.on_data_set s.queued_data with
  | Except.ok es => Except.ok ({ s with queued_data := [] }, es)
  | Except.error e => Except.error e

/-- A sequence of chunks arriving on the primary data channel, each handled
by `data_received`; effects accumulate in arrival order. -/
def processArrivals (s : DriverState) : List Chunk → DriverState × List Effect
  | [] => (s, [])
  | d :: rest =>
    let p := data_received s d
    let q := processArrivals p.1 rest
    (q.1, p.2 ++ q.2)

/-- An OS-level event delivered by the loop to the protocol instance. -/
inductive OSEvent where
  | dataReceived (d : Chunk)
  | pipeDataReceived (fd : Nat) (d : Chunk)
  | connectionLost (exc : Option Exc)
  | pipeConnectionLost (fd : Nat) (exc : Option Exc)
  | processExited
deriving DecidableEq

/-- Dispatch of one OS event to the matching protocol handler. -/
def handleEvent (s : DriverState) : OSEvent → Except PyErr (DriverState × List Effect)
  | OSEvent.dataReceived d => Except.ok (data_received s d)
  | OSEvent.pipeDataReceived fd d => Except.ok (pipe_data_received s fd d)
  | OSEvent.connectionLost exc => connection_lost s exc
  | OSEvent.pipeConnectionLost fd exc => pipe_connection_lost s fd exc
  | OSEvent.processExited => Except.ok (process_exited s)

/-- Handling of a whole event sequence; effects accumulate in order. -/
def runTrace (s : DriverState) : List OSEvent → Except PyErr (DriverState × List Effect)
  | [] => Except.ok (s, [])
  | ev :: rest =>
    match handleEvent s ev with
    | Except.error e => Except.error e
    | Except.ok p =>
      match runTrace p.1 rest with
      | Except.error e => Except.error e
      | Except.ok q => Except.ok (q.1, p.2 ++ q.2)

/-- Whether an effect is an invocation of the on error binding. -/
def isErrorEffect : Effect → Bool
  | Effect.onError _ => true
  | _ => false

/-- Number of on error invocations in an effect list. -/
def countErrors (es : List Effect) : Nat :=
  (es.filter isErrorEffect).length

/-- Whether an OS event is a lifecycle error event (lost connection,
lost pipe connection, or child exit). -/
def isErrorEvent : OSEvent → Bool
  | OSEvent.connectionLost _ => true
  | OSEvent.pipeConnectionLost _ _ => true
  | OSEvent.processExited => true
  | _ => false

/-- `self._signals` as recorded by `_setup_signals`. -/
structure SignalState where
  signals : List Nat
deriving DecidableEq

/-- `_setup_signals(signals)`: on Windows (`os.name == 'nt'`) record an empty
registry and register nothing; otherwise `self._signals = list(signals)` and
`add_signal_handler` is called for each signum in `self._signals`. Returns
the new registry and the list of signums passed to `add_signal_handler`,
in call order. -/
def setup_signals (os_is_nt : Bool) (signals : List Nat) : SignalState × List Nat :=
  if os_is_nt then ({ signals := [] }, [])
  else ({ signals := signals }, signals)

/-- `_teardown_signals()`: `remove_signal_handler(signum)` for each signum in
`self._signals`, in order. Returns the signums unregistered. -/
def teardown_signals (st : SignalState) : List Nat :=
  st.signals

/-- Driver with the on data binding registered, used as concrete start state
for the multiple-error trace. -/
def c2State : DriverState := register_on_data init_state

/-- A realistic child-process event sequence: the stdout pipe reaches EOF,
the child exits, and a late chunk is still delivered. -/
def c2Trace : List OSEvent :=
  [OSEvent.pipeConnectionLost 1 none, OSEvent.processExited,
   OSEvent.dataReceived [104, 105]]

/-- The effects the driver emits on `c2Trace`. -/
def c2Effects : List Effect :=
  [Effect.onError "EOF", Effect.onError "EOF", Effect.onData [104, 105]]

/-! Helper lemmas. -/

theorem countErrors_append (a b : List Effect) :
    countErrors (a ++ b) = countErrors a + countErrors b := by
  simp [countErrors, List.filter_append]

theorem drain_registered (q : List Chunk) :
    drain true q = Except.ok (q.map Effect.onData) := by
  induction q with
  | nil => rfl
  | cons d rest ih => simp [drain, ih]

theorem run_drain_registered (s : DriverState) (h : s.on_data_set = true) :
    run_drain s = Except.ok ({ s with queued_data := [] },
      s.queued_data.map Effect.onData) := by
  simp [run_drain, h, drain_registered]

theorem processArrivals_unregistered (pre : List Chunk) (s : DriverState)
    (h : s.on_data_set = false) :
    processArrivals s pre = ({ s with queued_data := s.queued_data ++ pre }, []) := by
  induction pre generalizing s with
  | nil => simp [processArrivals]
  | cons d rest ih =>
    have h2 : data_received s d = ({ s with queued_data := s.queued_data ++ [d] }, []) := by
      simp [data_received, h]
    simp only [processArrivals, h2]
    rw [ih { s with queued_data := s.queued_data ++ [d] } h]
    simp

theorem processArrivals_registered (post : List Chunk) (s : DriverState)
    (h : s.on_data_set = true) :
    processArrivals s post = (s, post.map Effect.onData) := by
  induction post generalizing s with
  | nil => rfl
  | cons d rest ih => simp [processArrivals, data_received, h, ih _ h]

theorem handleEvent_error_count (s : DriverState) (ev : OSEvent)
    (p : DriverState × List Effect) (h : handleEvent s ev = Except.ok p) :
    countErrors p.2 = if isErrorEvent ev then 1 else 0 := by
  cases ev with
  | dataReceived d =>
    simp only [handleEvent, Except.ok.injEq] at h
    subst h
    by_cases hb : s.on_data_set <;>
      simp [data_received, hb, countErrors, isErrorEffect, isErrorEvent]
  | pipeDataReceived fd d =>
    simp only [handleEvent, Except.ok.injEq] at h
    subst h
    by_cases h2 : fd = 2
    · simp [pipe_data_received, h2, countErrors, isErrorEffect, isErrorEvent]
    · by_cases hb : s.on_data_set <;>
        simp [pipe_data_received, h2, hb, countErrors, isErrorEffect, isErrorEvent]
  | connectionLost exc =>
    cases exc with
    | none =>
      simp only [handleEvent, connection_lost, Except.ok.injEq] at h
      subst h
      simp [countErrors, isErrorEffect, isErrorEvent]
    | some e =>
      cases hargs : e.args with
      | nil => simp [handleEvent, connection_lost, hargs] at h
      | cons r rest =>
        simp only [handleEvent, connection_lost, hargs, Except.ok.injEq] at h
        subst h
        simp [countErrors, isErrorEffect, isErrorEvent]
  | pipeConnectionLost fd exc =>
    cases exc with
    | none =>
      simp only [handleEvent, pipe_connection_lost, Except.ok.injEq] at h
      subst h
      simp [countErrors, isErrorEffect, isErrorEvent]
    | some e =>
      cases hargs : e.args with
      | nil => simp [handleEvent, pipe_connection_lost, hargs] at h
      | cons r rest =>
        simp only [handleEvent, pipe_connection_lost, hargs, Except.ok.injEq] at h
        subst h
        simp [countErrors, isErrorEffect, isErrorEvent]
  | processExited =>
    simp only [handleEvent, process_exited, Except.ok.injEq] at h
    subst h
    simp [countErrors, isErrorEffect, isErrorEvent]

/-! Claim theorems. -/

/-- C1: chunks arriving on the primary data channel before the on data
consumer binding is registered are appended to the Pending Byte Queue in
arrival order with nothing delivered; when the run phase begins the whole
queue is drained to the registered on data callback in original arrival
order, and subsequent chunks are delivered directly, so the consumer
observes every chunk exactly once, in arrival order, with no loss,
duplication, or reordering. -/
theorem C1_queue_then_drain (pre post : List Chunk) :
    ∃ s1 s2 : DriverState,
      processArrivals init_state pre = (s1, []) ∧
      s1.queued_data = pre ∧
      run_drain (register_on_data s1) = Except.ok (s2, pre.map Effect.onData) ∧
      s2.queued_data = [] ∧
      (processArrivals s2 post).2 = post.map Effect.onData ∧
      pre.map Effect.onData ++ post.map Effect.onData =
        (pre ++ post).map Effect.onData := by
  refine ⟨{ init_state with queued_data := pre }, register_on_data init_state,
    ?_, rfl, ?_, rfl, ?_, ?_⟩
  · rw [processArrivals_unregistered pre init_state rfl]
    rfl
  · rw [run_drain_registered (register_on_data { init_state with queued_data := pre }) rfl]
    rfl
  · rw [processArrivals_registered post (register_on_data init_state) rfl]
  · exact (List.map_append Effect.onData pre post).symm

/-- C2 counterexample: on a child-process transport, the stdout pipe losing
its connection and the child exiting each invoke the on error binding, so it
fires twice, and a chunk arriving afterwards is still delivered to the on
data binding: the relay is not at-most-once and callbacks are not suppressed
after the first error. -/
theorem C2_at_most_once_counterexample :
    runTrace c2State c2Trace = Except.ok (c2State, c2Effects) ∧
    c2Effects = [Effect.onError "EOF", Effect.onError "EOF",
      Effect.onData [104, 105]] ∧
    ¬ countErrors c2Effects ≤ 1 := by
  exact ⟨rfl, rfl, by decide⟩

/-- C2 amended: over any event sequence the handlers process without raising,
the on error binding is invoked exactly once per lifecycle error event
(connection lost, pipe connection lost, child exit) — hence possibly several
times per driver instance — and deliveries are never suppressed after an
error. -/
theorem C2_error_per_event (s s1 : DriverState) (tr : List OSEvent)
    (es : List Effect) (h : runTrace s tr = Except.ok (s1, es)) :
    countErrors es = (tr.filter isErrorEvent).length := by
  induction tr generalizing s es with
  | nil =>
    simp only [runTrace, Except.ok.injEq, Prod.mk.injEq] at h
    obtain ⟨h1, h2⟩ := h
    subst h2
    simp [countErrors]
  | cons ev rest ih =>
    rw [runTrace] at h
    split at h
    · exact Except.noConfusion h
    · rename_i p hev
      split at h
      · exact Except.noConfusion h
      · rename_i q hrt
        obtain ⟨qs, qes⟩ := q
        simp only [Except.ok.injEq, Prod.mk.injEq] at h
        obtain ⟨hq1, hq2⟩ := h
        subst hq1
        subst hq2
        rw [countErrors_append, handleEvent_error_count s ev p hev,
          ih p.1 qes hrt, List.filter_cons]
        cases hiv : isErrorEvent ev <;> simp [hiv] <;> omega

/-- Witness for the amended C2 on a concrete trace with two error events. -/
theorem C2_error_per_event_witness :
    countErrors c2Effects = (c2Trace.filter isErrorEvent).length :=
  C2_error_per_event c2State c2State c2Trace c2Effects rfl

/-- C3: on a lost connection (plain transport or pipe), the reason relayed
through the on error binding is the first element of the exception argument
tuple when a non-null exception is present, and the literal EOF marker when
no exception is present. -/
theorem C3_error_reason_normalization (s : DriverState) (e : Exc) (r : Reason)
    (rest : List Reason) (fd : Nat) :
    (e.args = r :: rest →
      connection_lost s (some e) = Except.ok (s, [Effect.onError r]) ∧
      pipe_connection_lost s fd (some e) = Except.ok (s, [Effect.onError r])) ∧
    connection_lost s none = Except.ok (s, [Effect.onError "EOF"]) ∧
    pipe_connection_lost s fd none = Except.ok (s, [Effect.onError "EOF"]) := by
  refine ⟨fun h => ?_, rfl, rfl⟩
  constructor <;> simp [connection_lost, pipe_connection_lost, h]

/-- Witness for C3 at a concrete exception and a concrete EOF event. -/
theorem C3_error_reason_normalization_witness :
    connection_lost init_state (some { args := ["broken pipe"] }) =
      Except.ok (init_state, [Effect.onError "broken pipe"]) ∧
    pipe_connection_lost init_state 1 none =
      Except.ok (init_state, [Effect.onError "EOF"]) :=
  ⟨((C3_error_reason_normalization init_state { args := ["broken pipe"] }
      "broken pipe" [] 1).1 rfl).1,
   (C3_error_reason_normalization init_state { args := ["broken pipe"] }
      "broken pipe" [] 1).2.2⟩

/-- C4: a chunk on fd 2 (stderr) is delivered directly to the on stderr
binding with the driver state unchanged — never queued, never handed to the
on data binding — while a chunk on any other fd follows exactly the primary
data path of `data_received`. -/
theorem C4_stderr_separation (s : DriverState) (d : Chunk) (fd : Nat) :
    pipe_data_received s 2 d = (s, [Effect.onStderr d]) ∧
    (fd ≠ 2 → pipe_data_received s fd d = data_received s d) := by
  constructor
  · simp [pipe_data_received]
  · intro h
    simp [pipe_data_received, data_received, h]

/-- Witness for C4: stderr chunk delivered directly, fd 1 follows the
primary path (here: queued, since no consumer is registered). -/
theorem C4_stderr_separation_witness :
    pipe_data_received init_state 2 [1, 2] = (init_state, [Effect.onStderr [1, 2]]) ∧
    pipe_data_received init_state 1 [1, 2] = data_received init_state [1, 2] :=
  ⟨(C4_stderr_separation init_state [1, 2] 1).1,
   (C4_stderr_separation init_state [1, 2] 1).2 (by decide)⟩

/-- C5: teardown unregisters exactly the list of signals that setup
registered, on both platforms, and on Windows setup records an empty
registry. -/
theorem C5_signal_round_trip (os_is_nt : Bool) (signals : List Nat) :
    teardown_signals (setup_signals os_is_nt signals).1 =
      (setup_signals os_is_nt signals).2 ∧
    (setup_signals true signals).1.signals = [] := by
  cases os_is_nt <;> simp [setup_signals, teardown_signals]

/-- C6: the child-exit handler reports the literal EOF reason regardless of
the exit code the operating system produced, identically to a clean
end-of-stream (`connection_lost` with no exception). -/
theorem C6_child_exit_eof (s : DriverState) (exitCode : Int) :
    handleChildExit s exitCode = (s, [Effect.onError "EOF"]) ∧
    connection_lost s none = Except.ok (handleChildExit s exitCode) :=
  ⟨rfl, rfl⟩

/-- C7: after `connection_made`, `_send` appends the chunk to the write side
selected at connection time — the stdin pipe sub-transport (index 0) for a
subprocess transport, the raw transport otherwise — and reports no failure
and no other result. -/
theorem C7_send_semantics (s : DriverState) (data : Chunk) :
    send_bytes (connection_made s true) data =
      Except.ok { connection_made s true with
        writes := (connection_made s true).writes ++ [(TransportRef.pipe 0, data)] } ∧
    send_bytes (connection_made s false) data =
      Except.ok { connection_made s false with
        writes := (connection_made s false).writes ++ [(TransportRef.raw, data)] } :=
  ⟨rfl, rfl⟩

/-- C8: `_close` closes the raw transport exactly when a connection handle
exists, always closes the loop, and on a driver fresh from `_init` (never
connected) performs only the loop shutdown. -/
theorem C8_close_behaviour (s : DriverState) :
    (CloseAction.closeTransport ∈ close_driver s ↔ s.raw_transport.isSome = true) ∧
    CloseAction.closeLoop ∈ close_driver s ∧
    close_driver init_state = [CloseAction.closeLoop] := by
  refine ⟨?_, ?_, rfl⟩ <;> cases h : s.raw_transport <;> simp [close_driver, h]

/-- C9: extracting the error reason from a present exception indexes its
argument tuple at 0: with an empty tuple the loss handlers raise IndexError
and relay nothing, and they succeed exactly when the tuple is non-empty. -/
theorem C9_reason_extraction_precondition (s : DriverState) (e : Exc) (fd : Nat) :
    (e.args = [] →
      connection_lost s (some e) = Except.error PyErr.indexError ∧
      pipe_connection_lost s fd (some e) = Except.error PyErr.indexError) ∧
    (e.args ≠ [] →
      ∃ r, connection_lost s (some e) = Except.ok (s, [Effect.onError r]) ∧
        pipe_connection_lost s fd (some e) = Except.ok (s, [Effect.onError r])) := by
  constructor
  · intro h
    constructor <;> simp [connection_lost, pipe_connection_lost, h]
  · intro h
    cases hargs : e.args with
    | nil => exact absurd hargs h
    | cons r rest =>
      exact ⟨r, by simp [connection_lost, hargs], by simp [pipe_connection_lost, hargs]⟩

/-- Witness for C9: an exception with an empty argument tuple makes the loss
handler raise IndexError instead of relaying. -/
theorem C9_reason_extraction_precondition_witness :
    connection_lost init_state (some { args := [] }) = Except.error PyErr.indexError ∧
    pipe_connection_lost init_state 0 (some { args := [] }) =
      Except.error PyErr.indexError :=
  (C9_reason_extraction_precondition init_state { args := [] } 0).1 rfl

/-- C10: the drain loop of `_run` calls the on data binding without checking
that one is registered: with a non-empty queue and no registered consumer it
raises TypeError, and with a registered consumer it succeeds, emptying the
queue in order. -/
theorem C10_drain_precondition (s : DriverState) :
    (s.queued_data ≠ [] → s.on_data_set = false →
      run_drain s = Except.error PyErr.typeError) ∧
    (s.on_data_set = true →
      run_drain s = Except.ok ({ s with queued_data := [] },
        s.queued_data.map Effect.onData)) := by
  constructor
  · intro h1 h2
    cases hq : s.queued_data with
    | nil => exact absurd hq h1
    | cons d rest => simp [run_drain, hq, drain, h2]
  · exact run_drain_registered s

/-- Witness for C10: a fresh driver with one queued chunk and no consumer
fails to drain. -/
theorem C10_drain_precondition_witness :
    run_drain { init_state with queued_data := [[7]] } =
      Except.error PyErr.typeError :=
  (C10_drain_precondition { init_state with queued_data := [[7]] }).1
    (by decide) rfl

end PynvimUVLoop
